import Mathlib

/-!
Verification of the Monte Carlo project-delivery-method simulation
(`monte-carlo-simulation.py`) against its natural-language specification.

The script is embedded shallowly: machine floats become rationals, the
stream of uniforms produced by the ambient NumPy global generator becomes
an explicit function `ℕ → ℚ`, the square root used by the triangular
sampler is passed as a function parameter, and fallible Python
evaluation (builtin `min`/`max` on a non-iterable scalar, NumPy parameter
validation) is modelled with `Except String`.
-/

namespace MonteCarlo

/-- Minimum of a list of rationals, as Python builtin `min` computes it on a
nonempty list (the `[]` case is never used by the script and defaults to 0). -/
def listMin : List ℚ → ℚ
  | [] => 0
  | x :: xs => xs.foldl min x

/-- Maximum of a list of rationals, as Python builtin `max` computes it on a
nonempty list. -/
def listMax : List ℚ → ℚ
  | [] => 0
  | x :: xs => xs.foldl max x

/-- A Python runtime value passed to builtin `min`/`max`: either a scalar
float (as at line 93, `min(quality)`) or a list (as at lines 91 and 92,
`min(times)`, `min(costs)`). -/
inductive PyVal where
  | float (q : ℚ)
  | list (l : List ℚ)
deriving DecidableEq

/-- Python builtin `min` of a single argument: iterating a float raises
`TypeError`; an empty list raises `ValueError`; otherwise the least element. -/
def pyMin : PyVal → Except String ℚ
  | .float _ => .error "TypeError: float object is not iterable"
  | .list l => if l.isEmpty then .error "ValueError: empty sequence" else .ok (listMin l)

/-- Python builtin `max` of a single argument, same shape as `pyMin`. -/
def pyMax : PyVal → Except String ℚ
  | .float _ => .error "TypeError: float object is not iterable"
  | .list l => if l.isEmpty then .error "ValueError: empty sequence" else .ok (listMax l)

/-- Lines 84-88: the script's `normalize(value, min_val, max_val, invert)`.
Returns 1 when `max_val == min_val`, otherwise `(value - min_val) / (max_val - min_val)`,
inverted to `1 - ...` when `invert` is set. -/
def normalize (value min_val max_val : ℚ) (invert : Bool) : ℚ :=
  if max_val = min_val then 1
  else
    let norm_value := (value - min_val) / (max_val - min_val)
    if invert then 1 - norm_value else norm_value

/-- Line 91 as a function of the draws made so far: the current draw `v` is
first appended to the running list (line 80), and `normalize` is then called
with the empirical `min`/`max` of that list and `invert=True`. -/
def normTimeEmp (prev : List ℚ) (v : ℚ) : ℚ :=
  let ts := prev ++ [v]
  normalize v (listMin ts) (listMax ts) true

/-- One triangular criterion `(min, most_likely, max)` as entered in the
sidebar form (lines 50-54). -/
structure Criterion where
  min : ℚ
  most_likely : ℚ
  max : ℚ
deriving DecidableEq

/-- A delivery method's three criteria (the dict returned by `get_user_input`). -/
structure MethodParams where
  time : Criterion
  cost : Criterion
  quality : Criterion
deriving DecidableEq

/-- The default sidebar values of `get_user_input` (lines 32-46). -/
def defaultParams : MethodParams :=
  ⟨⟨10, 15, 25⟩, ⟨4, 7, 10⟩, ⟨70, 85, 95⟩⟩

/-- Lines 20-24: the weight dict, each entered percentage divided by 100.
The sidebar widgets (lines 15-17) accept any integer percentage in [0, 100]. -/
structure Weights where
  time : ℚ
  cost : ℚ
  quality : ℚ
deriving DecidableEq

/-- Construction of the weight dict from the three entered percentages. -/
def mkWeights (time_weight cost_weight quality_weight : ℕ) : Weights :=
  ⟨(time_weight : ℚ) / 100, (cost_weight : ℚ) / 100, (quality_weight : ℚ) / 100⟩

/-- The sum of the three weights actually used by the score at lines 96-100. -/
def weightsSum (t c q : ℕ) : ℚ :=
  (mkWeights t c q).time + (mkWeights t c q).cost + (mkWeights t c q).quality

/-- The default weight percentages of lines 15-17 (60 / 20 / 20). -/
def defaultWeights : Weights := mkWeights 60 20 20

/-- NumPy `np.random.triangular(left, mode, right)` applied to one uniform
draw `u` (lines 76-78): parameter validation exactly as in NumPy (`left > mode`,
`mode > right` and `left == right` raise `ValueError`), then inverse-transform
sampling, with the square root supplied as the function parameter `s`. -/
def npTriangular (s : ℚ → ℚ) (left mode right u : ℚ) : Except String ℚ :=
  if left > mode then .error "ValueError: left > mode"
  else if mode > right then .error "ValueError: mode > right"
  else if left = right then .error "ValueError: left == right"
  else .ok (if u < (mode - left) / (right - left)
            then left + s (u * (right - left) * (mode - left))
            else right - s ((1 - u) * (right - left) * (right - mode)))

/-- The mutable per-candidate state of the trial loop: the `times`, `costs`
and `scores` lists (lines 71-73). -/
structure TrialState where
  times : List ℚ
  costs : List ℚ
  scores : List ℚ
deriving DecidableEq

/-- Lines 80-101, one iteration of the trial loop after the three draws:
append the time and cost draws, normalize time and cost against the running
empirical extrema, normalize quality against builtin `min`/`max` of the scalar
quality draw itself (line 93, which is a `TypeError` in Python), form the
weighted score and append it. -/
def trialStep (w : Weights) (st : TrialState) (time cost quality : ℚ) :
    Except String TrialState :=
  let times := st.times ++ [time]
  let costs := st.costs ++ [cost]
  do
    let t_min ← pyMin (.list times)
    let t_max ← pyMax (.list times)
    let norm_time := normalize time t_min t_max true
    let c_min ← pyMin (.list costs)
    let c_max ← pyMax (.list costs)
    let norm_cost := normalize cost c_min c_max true
    let q_min ← pyMin (.float quality)
    let q_max ← pyMax (.float quality)
    let norm_quality := normalize quality q_min q_max false
    let score := norm_time * w.time + norm_cost * w.cost + norm_quality * w.quality
    pure ⟨times, costs, st.scores ++ [score]⟩

/-- The trial loop of lines 75-101 for one candidate, consuming three uniforms
per iteration from the ambient generator stream `us`; `i` is the index of the
current iteration and fuel counts the remaining iterations. -/
def runSimAux (w : Weights) (p : MethodParams) (s : ℚ → ℚ) (us : ℕ → ℚ) :
    ℕ → ℕ → TrialState → Except String TrialState
  | 0, _, st => .ok st
  | n + 1, i, st => do
    let time ← npTriangular s p.time.min p.time.most_likely p.time.max (us (3 * i))
    let cost ← npTriangular s p.cost.min p.cost.most_likely p.cost.max (us (3 * i + 1))
    let quality ← npTriangular s p.quality.min p.quality.most_likely p.quality.max (us (3 * i + 2))
    let st2 ← trialStep w st time cost quality
    runSimAux w p s us n (i + 1) st2

/-- The whole per-candidate simulation loop: `iterations` trials starting from
empty `times`, `costs` and `scores` lists. -/
def runSim (w : Weights) (p : MethodParams) (s : ℚ → ℚ) (us : ℕ → ℚ)
    (iterations : ℕ) : Except String TrialState :=
  runSimAux w p s us iterations 0 ⟨[], [], []⟩

/-- The raw draw triples of lines 76-78 (the sampling stage alone) for `n`
trials: each trial consumes three uniforms from the ambient stream `us`. -/
def sampleTrialDraws (p : MethodParams) (s : ℚ → ℚ) (us : ℕ → ℚ) (n : ℕ) :
    List (Except String ℚ × Except String ℚ × Except String ℚ) :=
  (List.range n).map fun i =>
    (npTriangular s p.time.min p.time.most_likely p.time.max (us (3 * i)),
     npTriangular s p.cost.min p.cost.most_likely p.cost.max (us (3 * i + 1)),
     npTriangular s p.quality.min p.quality.most_likely p.quality.max (us (3 * i + 2)))

/-- The widget of line 12 (`st.sidebar.number_input` with `min_value=100`)
accepts a trial count only when it is at least 100. -/
def iterationsAccepted (n : ℕ) : Bool := 100 ≤ n

/-- One row of `df_results` (lines 103-110, after line 117 drops the raw
`scores` column): summary statistics per delivery method. -/
structure ResultRow where
  method : String
  mean_score : ℚ
  std_dev : ℚ
  mean_time : ℚ
  mean_cost : ℚ
deriving DecidableEq

/-- The scan underlying pandas `Series.idxmax`: walk the remaining values
with the running index `i`, keeping the index `best` of the first occurrence
of the running maximum `bv` (a later value replaces it only when strictly
greater). -/
def idxmaxFrom : List ℚ → ℕ → ℕ → ℚ → ℕ
  | [], _, best, _ => best
  | x :: xs, i, best, bv =>
    if bv < x then idxmaxFrom xs (i + 1) i x else idxmaxFrom xs (i + 1) best bv

/-- pandas `Series.idxmax`: index of the first occurrence of the maximum,
`none` for an empty series. -/
def idxmax : List ℚ → Option ℕ
  | [] => none
  | x :: xs => some (idxmaxFrom xs 1 0 x)

/-- Line 140: `df_results.loc[df_results["mean_score"].idxmax()]`, the row of
the first method attaining the maximal mean score. -/
def bestMethod (rows : List ResultRow) : Option ResultRow :=
  (idxmax (rows.map (·.mean_score))).bind fun i => rows[i]?

/-- Line 141: the rows whose method name differs from the best row's. -/
def nonBestMethods (rows : List ResultRow) (best : ResultRow) : List ResultRow :=
  rows.filter fun r => r.method != best.method

/-- Lines 144-157: the numeric figures written for one non-best method — the
time difference `method.mean_time - best.mean_time` (negated when not
positive, matching the saves/requires wording) and likewise the cost
difference. No other quantity is written. -/
def practicalFigures (best other : ResultRow) : List ℚ :=
  let time_difference := other.mean_time - best.mean_time
  let cost_difference := other.mean_cost - best.mean_cost
  [if 0 < time_difference then time_difference else -time_difference,
   if 0 < cost_difference then cost_difference else -cost_difference]

/-- Follows the spec wording only, for comparison with the source: the
selection rule the claim states, maximum mean score with ties broken by
lowest std_dev and then by input order (the earlier row is kept unless the
later row is strictly better under that lexicographic rule). -/
def specSelectWithStd : List ResultRow → Option ResultRow
  | [] => none
  | x :: xs =>
    some <| xs.foldl
      (fun best r =>
        if best.mean_score < r.mean_score ∨
            (r.mean_score = best.mean_score ∧ r.std_dev < best.std_dev)
        then r else best) x

/-- Follows the spec wording with the std_dev tiebreak removed: first row in
input order attaining the maximal mean score. -/
def specSelectByOrder (x : ResultRow) (xs : List ResultRow) : ResultRow :=
  xs.foldl (fun best r => if best.mean_score < r.mean_score then r else best) x

/-- Follows the spec wording only, for comparison with the source: the
percentage difference of a metric value `val` relative to the best row's
base value `base`. -/
def specPercentDifference (base val : ℚ) : ℚ := 100 * (val - base) / base

end MonteCarlo

namespace MonteCarlo

/- ### Helper lemmas -/

lemma foldl_min_le_init (xs : List ℚ) (a : ℚ) : xs.foldl min a ≤ a := by
  induction xs generalizing a with
  | nil => exact le_refl a
  | cons x xs ih =>
    calc (x :: xs).foldl min a = xs.foldl min (min a x) := rfl
    _ ≤ min a x := ih (min a x)
    _ ≤ a := min_le_left a x

lemma foldl_min_le_mem {x : ℚ} {xs : List ℚ} (a : ℚ) (hx : x ∈ xs) :
    xs.foldl min a ≤ x := by
  induction xs generalizing a with
  | nil => cases hx
  | cons y ys ih =>
    rcases List.mem_cons.mp hx with h | h
    · subst h
      calc (x :: ys).foldl min a = ys.foldl min (min a x) := rfl
      _ ≤ min a x := foldl_min_le_init ys (min a x)
      _ ≤ x := min_le_right a x
    · exact ih (min a y) h

lemma le_foldl_max_init (xs : List ℚ) (a : ℚ) : a ≤ xs.foldl max a := by
  induction xs generalizing a with
  | nil => exact le_refl a
  | cons x xs ih =>
    calc a ≤ max a x := le_max_left a x
    _ ≤ xs.foldl max (max a x) := ih (max a x)
    _ = (x :: xs).foldl max a := rfl

lemma mem_le_foldl_max {x : ℚ} {xs : List ℚ} (a : ℚ) (hx : x ∈ xs) :
    x ≤ xs.foldl max a := by
  induction xs generalizing a with
  | nil => cases hx
  | cons y ys ih =>
    rcases List.mem_cons.mp hx with h | h
    · subst h
      calc x ≤ max a x := le_max_right a x
      _ ≤ ys.foldl max (max a x) := le_foldl_max_init ys (max a x)
      _ = (x :: ys).foldl max a := rfl
    · exact ih (max a y) h

lemma listMin_le_mem {x : ℚ} {l : List ℚ} (hx : x ∈ l) : listMin l ≤ x := by
  cases l with
  | nil => cases hx
  | cons y ys =>
    rcases List.mem_cons.mp hx with h | h
    · subst h; exact foldl_min_le_init ys x
    · exact foldl_min_le_mem y h

lemma mem_le_listMax {x : ℚ} {l : List ℚ} (hx : x ∈ l) : x ≤ listMax l := by
  cases l with
  | nil => cases hx
  | cons y ys =>
    rcases List.mem_cons.mp hx with h | h
    · subst h; exact le_foldl_max_init ys x
    · exact mem_le_foldl_max y h

/- ### C5 -/

/-- C5: for every degenerate criterion with `max == min`, the script's
`normalize` returns the single neutral value 1, for any input value and for
both directions (`invert` true and false), never dividing by zero. -/
theorem normalize_degenerate_neutral (value m : ℚ) (invert : Bool) :
    normalize value m m invert = 1 := by
  simp [normalize]

/- ### C1 -/

/-- The normalization the claim asserts for a `LowerIsBetter` criterion,
following the spec wording: `1 - (value - min) / (max - min)` with the
criterion's own declared bounds. -/
def specDeclaredNormLower (value declared_min declared_max : ℚ) : ℚ :=
  1 - (value - declared_min) / (declared_max - declared_min)

/-- C1 counterexample: with the declared time bounds (10, 25) of the default
criterion and the in-range draw sequence 15, 20, the script's second-trial
time normalization (line 91, empirical extrema of the running draw list)
is 0, not the value `1/3` demanded by the declared-bounds formula. -/
theorem normalize_empirical_ne_declared :
    normTimeEmp [15] 20 ≠ specDeclaredNormLower 20 10 25 ∧ normTimeEmp [15] 20 = 0 := by
  have h1 : normTimeEmp [15] 20 = 0 := by
    norm_num [normTimeEmp, listMin, listMax, normalize, min_def, max_def]
  have h2 : specDeclaredNormLower 20 10 25 = 1 / 3 := by
    norm_num [specDeclaredNormLower]
  exact ⟨by rw [h1, h2]; norm_num, h1⟩

/-- C1 amended: the time (and cost) normalization uses the running empirical
minimum and maximum of that candidate's draws so far, including the current
draw; consequently it always lies in [0, 1] and on the first trial it is
always the degenerate neutral value 1, whatever the declared bounds are. -/
theorem normTimeEmp_bounds (prev : List ℚ) (v : ℚ) :
    (0 ≤ normTimeEmp prev v ∧ normTimeEmp prev v ≤ 1) ∧ normTimeEmp [] v = 1 := by
  refine ⟨?_, by simp [normTimeEmp, listMin, listMax, normalize]⟩
  have hv : v ∈ prev ++ [v] := by simp
  have hmin : listMin (prev ++ [v]) ≤ v := listMin_le_mem hv
  have hmax : v ≤ listMax (prev ++ [v]) := mem_le_listMax hv
  by_cases hd : listMax (prev ++ [v]) = listMin (prev ++ [v])
  · simp [normTimeEmp, normalize, hd]
  · have hlt : listMin (prev ++ [v]) < listMax (prev ++ [v]) :=
      lt_of_le_of_ne (le_trans hmin hmax) (fun h => hd h.symm)
    have hdpos : 0 < listMax (prev ++ [v]) - listMin (prev ++ [v]) := by linarith
    have h0 : 0 ≤ (v - listMin (prev ++ [v])) / (listMax (prev ++ [v]) - listMin (prev ++ [v])) :=
      div_nonneg (by linarith) (le_of_lt hdpos)
    have h1 : (v - listMin (prev ++ [v])) / (listMax (prev ++ [v]) - listMin (prev ++ [v])) ≤ 1 :=
      (div_le_one hdpos).mpr (by linarith)
    have key : normTimeEmp prev v =
        1 - (v - listMin (prev ++ [v])) / (listMax (prev ++ [v]) - listMin (prev ++ [v])) := by
      simp [normTimeEmp, normalize, hd]
    rw [key]
    constructor <;> linarith

/- ### C4 -/

/-- C4 counterexample: the percentages 50 / 30 / 30 are each accepted by the
sidebar widgets (they lie in [0, 100]), yet the weight vector actually used by
the score sums to 11/10, not 1, and no renormalization or recording happens
anywhere in the script. -/
theorem weights_accepted_not_normalized :
    (50 ≤ 100 ∧ 30 ≤ 100) ∧ weightsSum 50 30 30 ≠ 1 := by
  refine ⟨⟨by norm_num, by norm_num⟩, ?_⟩
  norm_num [weightsSum, mkWeights]

/-- C4 amended: each entered percentage is merely divided by 100 (lines
20-24) and no renormalization is ever applied, so the weight vector used by
the composite score sums to 1 exactly when the entered percentages sum
to 100; for any other accepted percentages it does not, silently. -/
theorem weightsSum_eq_one_iff (t c q : ℕ) :
    weightsSum t c q = 1 ↔ t + c + q = 100 := by
  unfold weightsSum mkWeights
  rw [div_add_div_same, div_add_div_same, div_eq_one_iff_eq (by norm_num : (100 : ℚ) ≠ 0)]
  constructor
  · intro h; exact_mod_cast h
  · intro h; exact_mod_cast congrArg (fun n : ℕ => (n : ℚ)) h

/- ### C9 -/

/-- C9 counterexample: for the degenerate criterion `min == most_likely ==
max == 10`, the sampler call `np.random.triangular(10, 10, 10)` raises
`ValueError: left == right`; it does not return the point mass 10. -/
theorem npTriangular_degenerate_raises :
    npTriangular id 10 10 10 (1 / 2) = .error "ValueError: left == right" ∧
      npTriangular id 10 10 10 (1 / 2) ≠ .ok 10 := by
  constructor <;> simp [npTriangular]

/-- C9 amended: for every degenerate criterion whose three parameters are all
equal, NumPy's triangular sampler rejects the parameters with
`ValueError: left == right` on every draw, instead of returning `min`
deterministically; the script has no fallback for this case. -/
theorem npTriangular_degenerate_always_raises (s : ℚ → ℚ) (m u : ℚ) :
    npTriangular s m m m u = .error "ValueError: left == right" := by
  simp [npTriangular]

/- ### C10 -/

/-- C10 counterexample: the script draws from NumPy's ambient global
generator and never seeds it, so two runs on the identical default
configuration but under different ambient generator states (here the uniform
streams constantly 1/4 and constantly 3/4) produce different trial draws
already at the first trial. -/
theorem same_config_different_streams :
    sampleTrialDraws defaultParams id (fun _ => 1 / 4) 1 ≠
      sampleTrialDraws defaultParams id (fun _ => 3 / 4) 1 := by
  intro h
  have h1 : sampleTrialDraws defaultParams id (fun _ => 1 / 4) 1 =
      [(.ok (10 + (1 / 4 * (25 - 10) * (15 - 10))),
        .ok (4 + (1 / 4 * (10 - 4) * (7 - 4))),
        .ok (70 + (1 / 4 * (95 - 70) * (85 - 70))))] := by
    norm_num [sampleTrialDraws, npTriangular, defaultParams, List.range_succ]
  have h2 : sampleTrialDraws defaultParams id (fun _ => 3 / 4) 1 =
      [(.ok (25 - ((1 - 3 / 4) * (25 - 10) * (25 - 15))),
        .ok (10 - ((1 - 3 / 4) * (10 - 4) * (10 - 7))),
        .ok (95 - ((1 - 3 / 4) * (95 - 70) * (95 - 85))))] := by
    norm_num [sampleTrialDraws, npTriangular, defaultParams, List.range_succ]
  rw [h1, h2] at h
  norm_num at h

/-- C10 amended: the trial draws are a deterministic function of the
configuration and of the ambient global generator's uniform stream; since
the script never seeds that stream and exposes no seed parameter, two runs
reproduce identical trial sequences exactly when the ambient stream is the
same, not by virtue of any explicit seed. -/
theorem draws_determined_by_stream (p : MethodParams) (s : ℚ → ℚ)
    (us1 us2 : ℕ → ℚ) (n : ℕ) (h : ∀ i, us1 i = us2 i) :
    sampleTrialDraws p s us1 n = sampleTrialDraws p s us2 n := by
  have : us1 = us2 := funext h
  rw [this]

/-- Witness for `draws_determined_by_stream` at a concrete configuration and
two extensionally equal concrete streams. -/
theorem draws_determined_by_stream_witness :
    sampleTrialDraws defaultParams id (fun _ => 1 / 2) 2 =
      sampleTrialDraws defaultParams id (fun _ => 2 / 4) 2 :=
  draws_determined_by_stream defaultParams id (fun _ => 1 / 2) (fun _ => 2 / 4) 2
    (fun _ => by norm_num)

/- ### C7 -/

/-- C7 counterexample: for a best row with mean time 10 and mean cost 5
against a non-best row with mean time 12 and mean cost 6, the practical
significance section writes exactly the figures 2 (months) and 1 (million);
the percentage time difference demanded by the claim, 20, is not among the
written figures. -/
theorem practical_report_lacks_percentage :
    specPercentDifference (10 : ℚ) 12 ∉
      practicalFigures ⟨"Design-Build (DB)", 1/2, 1/10, 10, 5⟩
        ⟨"Design-Bid-Build (DBB)", 2/5, 1/10, 12, 6⟩ ∧
    practicalFigures ⟨"Design-Build (DB)", 1/2, 1/10, 10, 5⟩
        ⟨"Design-Bid-Build (DBB)", 2/5, 1/10, 12, 6⟩ = [2, 1] := by
  have h : practicalFigures ⟨"Design-Build (DB)", 1/2, 1/10, 10, 5⟩
      ⟨"Design-Bid-Build (DBB)", 2/5, 1/10, 12, 6⟩ = [2, 1] := by
    norm_num [practicalFigures]
  refine ⟨?_, h⟩
  rw [h]
  have hp : specPercentDifference (10 : ℚ) 12 = 20 := by
    norm_num [specPercentDifference]
  rw [hp]
  norm_num

/-- C7 amended: for each non-best candidate the practical verdict reports
the absolute difference in mean time and in mean cost between the best
candidate and that candidate (the sign only selects the saves/requires
wording); no percentage difference is computed or reported. -/
theorem practicalFigures_abs_only (best other : ResultRow) :
    practicalFigures best other =
      [|other.mean_time - best.mean_time|, |other.mean_cost - best.mean_cost|] := by
  have habs : ∀ d : ℚ, (if 0 < d then d else -d) = |d| := by
    intro d
    by_cases hd : 0 < d
    · simp [hd, abs_of_pos hd]
    · simp [hd, abs_of_nonpos (le_of_not_lt hd)]
  simp only [practicalFigures, habs]

/- ### C6 -/

/-- C6 counterexample: two methods with the same mean score 1/2, the first
with std_dev 3/10 and the second with std_dev 1/10. The claimed rule (ties
broken by lowest std_dev) selects the second row, but line 140's
`idxmax`-based selection returns the first row: std_dev is never consulted. -/
theorem bestMethod_ignores_std_dev :
    bestMethod [⟨"A", 1/2, 3/10, 0, 0⟩, ⟨"B", 1/2, 1/10, 0, 0⟩] ≠
      specSelectWithStd [⟨"A", 1/2, 3/10, 0, 0⟩, ⟨"B", 1/2, 1/10, 0, 0⟩] ∧
    bestMethod [⟨"A", 1/2, 3/10, 0, 0⟩, ⟨"B", 1/2, 1/10, 0, 0⟩] =
      some ⟨"A", 1/2, 3/10, 0, 0⟩ := by
  have h1 : bestMethod [⟨"A", 1/2, 3/10, 0, 0⟩, ⟨"B", 1/2, 1/10, 0, 0⟩] =
      some ⟨"A", 1/2, 3/10, 0, 0⟩ := by
    norm_num [bestMethod, idxmax, idxmaxFrom]
  have h2 : specSelectWithStd [⟨"A", 1/2, 3/10, 0, 0⟩, ⟨"B", 1/2, 1/10, 0, 0⟩] =
      some ⟨"B", 1/2, 1/10, 0, 0⟩ := by
    norm_num [specSelectWithStd]
  refine ⟨?_, h1⟩
  rw [h1, h2]
  simp

/-- The `idxmax` scan, started after a prefix `pre` whose first maximum is
known to sit at index `b` with value `acc.mean_score`, lands on the row that
the order-only fold selects. -/
lemma idxmaxFrom_lookup :
    ∀ (xs pre : List ResultRow) (b : ℕ) (acc : ResultRow),
      pre[b]? = some acc →
      (pre ++ xs)[idxmaxFrom (xs.map (·.mean_score)) pre.length b acc.mean_score]? =
        some (xs.foldl (fun best r => if best.mean_score < r.mean_score then r else best) acc) := by
  intro xs
  induction xs with
  | nil =>
    intro pre b acc hb
    simpa using hb
  | cons r rest ih =>
    intro pre b acc hb
    have hblt : b < pre.length := by
      by_contra hge
      rw [List.getElem?_eq_none (le_of_not_lt hge)] at hb
      cases hb
    have hsplit : pre ++ r :: rest = (pre ++ [r]) ++ rest := by
      simp
    have hlen : (pre ++ [r]).length = pre.length + 1 := by simp
    simp only [List.map_cons, idxmaxFrom, List.foldl_cons]
    by_cases hcmp : acc.mean_score < r.mean_score
    · have hr : (pre ++ [r])[pre.length]? = some r := by
        rw [List.getElem?_append_right (le_refl pre.length)]
        simp
      have := ih (pre ++ [r]) pre.length r hr
      rw [hlen] at this
      rw [hsplit]
      simpa [hcmp] using this
    · have hacc : (pre ++ [r])[b]? = some acc := by
        rw [List.getElem?_append_left hblt]
        exact hb
      have := ih (pre ++ [r]) b acc hacc
      rw [hlen] at this
      rw [hsplit]
      simpa [hcmp] using this

/-- C6 amended: line 140 selects the first row in input order attaining the
maximal mean score (pandas `idxmax` keeps the first occurrence of the
maximum); std_dev plays no part in the selection, so ties are broken by
input order alone. -/
theorem bestMethod_first_argmax (x : ResultRow) (xs : List ResultRow) :
    bestMethod (x :: xs) = some (specSelectByOrder x xs) := by
  have h := idxmaxFrom_lookup xs [x] 0 x (by simp)
  simpa [bestMethod, idxmax, specSelectByOrder] using h

/- ### C2 and C8: the trial loop -/

/-- Every iteration of the trial loop aborts at line 93: builtin `min` is
applied to the scalar quality draw, which is not iterable. -/
lemma trialStep_raises (w : Weights) (st : TrialState) (t c q : ℚ) :
    trialStep w st t c q = .error "TypeError: float object is not iterable" := by
  have ht : (st.times ++ [t]).isEmpty = false := by
    cases st.times <;> simp [List.isEmpty]
  have hc : (st.costs ++ [c]).isEmpty = false := by
    cases st.costs <;> simp [List.isEmpty]
  simp [trialStep, pyMin, pyMax, ht, hc, Bind.bind, Except.bind]

/-- A non-degenerate, correctly ordered triangular call succeeds and returns
the inverse-transform draw. -/
lemma npTriangular_ok (s : ℚ → ℚ) {left mode right : ℚ} (u : ℚ)
    (h1 : left ≤ mode) (h2 : mode ≤ right) (h3 : left ≠ right) :
    npTriangular s left mode right u =
      .ok (if u < (mode - left) / (right - left)
           then left + s (u * (right - left) * (mode - left))
           else right - s ((1 - u) * (right - left) * (right - mode))) := by
  simp [npTriangular, not_lt.mpr h1, not_lt.mpr h2, h3]

/-- C2 counterexample: on the very first trial, with the default weights and
the in-range draws time 15, cost 7, quality 85, the trial body raises
`TypeError` at the quality normalization instead of computing the claimed
neutral quality score 1; in particular `min` of the scalar quality draw is an
error, not the draw itself. -/
theorem trialStep_concrete_typeError :
    trialStep defaultWeights ⟨[], [], []⟩ 15 7 85 =
        .error "TypeError: float object is not iterable" ∧
      pyMin (.float 85) = .error "TypeError: float object is not iterable" :=
  ⟨trialStep_raises defaultWeights ⟨[], [], []⟩ 15 7 85, rfl⟩

/-- C2 amended: for every trial of every candidate, whatever the weights,
the accumulated draw lists and the sampled values, evaluating the trial body
raises `TypeError: float object is not iterable` at line 93, because builtin
`min`/`max` is applied to the scalar quality draw; no normalized quality
score and no composite score is ever produced, so the quality criterion
never contributes to anything (the simulation crashes on its first trial). -/
theorem trialStep_always_typeError (w : Weights) (st : TrialState) (t c q : ℚ) :
    trialStep w st t c q = .error "TypeError: float object is not iterable" :=
  trialStep_raises w st t c q

/-- C8 counterexample: with the default configuration, a run of 0 trials
returns normally with empty results (no `InvalidTrialCountError` — the class
does not exist in the script), while a run of 1 trial fails with a
`TypeError`, not with an `InsufficientSampleError` (which also does not
exist; the script never performs a significance test). -/
theorem runSim_zero_trials_ok :
    runSim defaultWeights defaultParams id (fun _ => 1 / 2) 0 = .ok ⟨[], [], []⟩ ∧
      runSim defaultWeights defaultParams id (fun _ => 1 / 2) 1 =
        .error "TypeError: float object is not iterable" := by
  constructor
  · rfl
  · show runSimAux _ _ _ _ 1 0 ⟨[], [], []⟩ = _
    rw [runSimAux,
      npTriangular_ok id _ (by norm_num [defaultParams]) (by norm_num [defaultParams])
        (by norm_num [defaultParams]),
      npTriangular_ok id _ (by norm_num [defaultParams]) (by norm_num [defaultParams])
        (by norm_num [defaultParams]),
      npTriangular_ok id _ (by norm_num [defaultParams]) (by norm_num [defaultParams])
        (by norm_num [defaultParams])]
    simp [Bind.bind, Except.bind, trialStep_raises]

/-- C8 amended: the script defines no error taxonomy at all. The trial-count
widget simply refuses values below 100, a hypothetical run of 0 trials would
return normally with empty score, time and cost lists, and every run of at
least one trial aborts with a `TypeError` at the quality normalization; no
`InvalidTrialCountError` and no `InsufficientSampleError` is ever raised,
and no significance test is attempted. -/
theorem no_trial_count_error :
    (iterationsAccepted 0 = false) ∧
      (∀ (w : Weights) (p : MethodParams) (s : ℚ → ℚ) (us : ℕ → ℚ),
        runSim w p s us 0 = .ok ⟨[], [], []⟩) ∧
      (∀ (us : ℕ → ℚ) (n : ℕ),
        runSim defaultWeights defaultParams id us (n + 1) =
          .error "TypeError: float object is not iterable") := by
  refine ⟨rfl, fun w p s us => rfl, fun us n => ?_⟩
  show runSimAux _ _ _ _ (n + 1) 0 ⟨[], [], []⟩ = _
  rw [runSimAux,
    npTriangular_ok id _ (by norm_num [defaultParams]) (by norm_num [defaultParams])
      (by norm_num [defaultParams]),
    npTriangular_ok id _ (by norm_num [defaultParams]) (by norm_num [defaultParams])
      (by norm_num [defaultParams]),
    npTriangular_ok id _ (by norm_num [defaultParams]) (by norm_num [defaultParams])
      (by norm_num [defaultParams])]
  simp [Bind.bind, Except.bind, trialStep_raises]

/- ### C3: the Significance Analyzer -/

/-- Modelled from the spec: the Significance Analyzer is missing from src
(`ttest_ind` is imported at line 5 but never called anywhere). Sample mean
of a score sequence. -/
def sampleMean (xs : List ℚ) : ℚ := xs.sum / xs.length

/-- Modelled from the spec: sample variance (denominator `n - 1`, not
assuming equal variance across candidates) of a score sequence. -/
def sampleVar (xs : List ℚ) : ℚ :=
  ((xs.map fun x => (x - sampleMean xs) ^ 2).sum) / ((xs.length : ℚ) - 1)

/-- Modelled from the spec: the Welch two-sample t statistic
`(mean x - mean y) / sqrt(var x / n + var y / m)`, with the square root
supplied as the function parameter `sq`. -/
def welchT (sq : ℚ → ℚ) (xs ys : List ℚ) : ℚ :=
  (sampleMean xs - sampleMean ys) /
    sq (sampleVar xs / xs.length + sampleVar ys / ys.length)

/-- Modelled from the spec: the Welch-Satterthwaite degrees of freedom. -/
def welchDf (xs ys : List ℚ) : ℚ :=
  (sampleVar xs / xs.length + sampleVar ys / ys.length) ^ 2 /
    ((sampleVar xs / xs.length) ^ 2 / ((xs.length : ℚ) - 1) +
      (sampleVar ys / ys.length) ^ 2 / ((ys.length : ℚ) - 1))

/-- Modelled from the spec: the two-sided p-value, twice the upper tail of
the t distribution at `|t|`, with the tail probability supplied as the
function parameter `sf` (taking the degrees of freedom and `|t|`). This is
the entry of the pairwise significance matrix for one candidate pair. -/
def welchPval (sq : ℚ → ℚ) (sf : ℚ → ℚ → ℚ) (xs ys : List ℚ) : ℚ :=
  2 * sf (welchDf xs ys) |welchT sq xs ys|

/-- C3 (spec-modelled): for any two score sequences of length at least 2,
the two-sided Welch p-value is symmetric in the two candidates, whatever
square-root and tail-probability functions instantiate it, so the pairwise
significance matrix satisfies `p(a,b) = p(b,a)`. -/
theorem welchPval_symm (sq : ℚ → ℚ) (sf : ℚ → ℚ → ℚ) (xs ys : List ℚ)
    (_hx : 2 ≤ xs.length) (_hy : 2 ≤ ys.length) :
    welchPval sq sf xs ys = welchPval sq sf ys xs := by
  have hD : sq (sampleVar ys / ys.length + sampleVar xs / xs.length) =
      sq (sampleVar xs / xs.length + sampleVar ys / ys.length) := by
    rw [add_comm]
  have hT : welchT sq ys xs = -welchT sq xs ys := by
    unfold welchT
    rw [hD]
    ring
  have habs : |welchT sq ys xs| = |welchT sq xs ys| := by
    rw [hT, abs_neg]
  have hdf : welchDf ys xs = welchDf xs ys := by
    unfold welchDf
    ring
  unfold welchPval
  rw [hdf, habs]

/-- Witness for `welchPval_symm` at two concrete score sequences of length 2
and concrete square-root and tail functions. -/
theorem welchPval_symm_witness :
    (2 ≤ ([0, 1] : List ℚ).length ∧ 2 ≤ ([1, 2] : List ℚ).length) ∧
      welchPval id (fun d t => d + t) [0, 1] [1, 2] =
        welchPval id (fun d t => d + t) [1, 2] [0, 1] :=
  ⟨⟨by decide, by decide⟩,
    welchPval_symm id (fun d t => d + t) [0, 1] [1, 2] (by decide) (by decide)⟩

end MonteCarlo
